import Mathlib

/-!
Verification of the core of the `jdbc-mcp-server` repository: the adapter
abstraction, query-safety gate, parameter sanitizer, error classifier and
value serializer.  Strings from the Python source are embedded as `List Char`
(one entry per code point); Python machine floats are modelled as exact
rationals (every numeric instance appearing in a theorem below is exactly
representable as a binary double, so no rounding behaviour is lost).
The third-party `sqlparse` library and the native database drivers are not
part of the repository; their outcomes are passed to the embedded functions
as explicit oracle values (`ParseResult`, driver result fields), exactly as
the source consumes them.
-/

namespace JdbcMcp

/-! ### Character-level helpers mirroring the Python string primitives -/

/-- ASCII lower-casing of one character, mirroring `str.lower()` on the ASCII
range (every pattern matched by the source is ASCII). -/
def pyLower (c : Char) : Char :=
  if 'A' ≤ c ∧ c ≤ 'Z' then Char.ofNat (c.toNat + 32) else c

/-- ASCII upper-casing of one character, mirroring `str.upper()` on the ASCII
range (the dangerous-keyword scan only distinguishes ASCII letters). -/
def pyUpper (c : Char) : Char :=
  if 'a' ≤ c ∧ c ≤ 'z' then Char.ofNat (c.toNat - 32) else c

/-- The characters `str.strip()` removes, i.e. Python ASCII whitespace. -/
def pyIsSpace (c : Char) : Bool :=
  c = ' ' || c = '\t' || c = '\n' || c = '\r' || c = '\x0b' || c = '\x0c'

/-- Whether `needle` occurs at the head of `hay` (pointwise equality). -/
def listStartsWith : List Char → List Char → Bool
  | [], _ => true
  | _ :: _, [] => false
  | a :: as, b :: bs => a = b && listStartsWith as bs

/-- Whether `needle` occurs contiguously anywhere in `hay`; this is the
Python substring test `needle in hay`. -/
def containsSub (needle : List Char) : List Char → Bool
  | [] => needle.isEmpty
  | c :: rest => listStartsWith needle (c :: rest) || containsSub needle rest

theorem mem_of_listStartsWith {needle hay : List Char}
    (h : listStartsWith needle hay = true) : ∀ c ∈ needle, c ∈ hay := by
  induction needle generalizing hay with
  | nil => intro c hc; cases hc
  | cons a as ih =>
    cases hay with
    | nil => simp [listStartsWith] at h
    | cons b bs =>
      simp only [listStartsWith, Bool.and_eq_true, decide_eq_true_eq] at h
      intro c hc
      rcases List.mem_cons.mp hc with rfl | hc'
      · exact h.1 ▸ List.mem_cons_self _ _
      · exact List.mem_cons_of_mem _ (ih h.2 c hc')

theorem mem_of_containsSub {needle hay : List Char}
    (h : containsSub needle hay = true) : ∀ c ∈ needle, c ∈ hay := by
  induction hay with
  | nil =>
    intro c hc
    simp only [containsSub, List.isEmpty_iff] at h
    subst h; cases hc
  | cons b bs ih =>
    simp only [containsSub, Bool.or_eq_true] at h
    intro c hc
    rcases h with h | h
    · exact mem_of_listStartsWith h c hc
    · exact List.mem_cons_of_mem _ (ih h c hc)

theorem listStartsWith_map (f : Char → Char) {needle hay : List Char}
    (h : listStartsWith needle hay = true) :
    listStartsWith (needle.map f) (hay.map f) = true := by
  induction needle generalizing hay with
  | nil => simp [listStartsWith]
  | cons a as ih =>
    cases hay with
    | nil => simp [listStartsWith] at h
    | cons b bs =>
      simp only [listStartsWith, Bool.and_eq_true, decide_eq_true_eq] at h ⊢
      exact ⟨by rw [h.1], ih h.2⟩

theorem containsSub_map (f : Char → Char) {needle hay : List Char}
    (h : containsSub needle hay = true) :
    containsSub (needle.map f) (hay.map f) = true := by
  induction hay with
  | nil =>
    simp only [containsSub, List.isEmpty_iff] at h
    subst h; simp [containsSub]
  | cons b bs ih =>
    simp only [containsSub, Bool.or_eq_true] at h ⊢
    rcases h with h | h
    · exact Or.inl (listStartsWith_map f h)
    · exact Or.inr (ih h)

/-! ### Error taxonomy (`errors.py`) -/

/-- `ErrorCategory` enumeration from `errors.py`. -/
inductive ErrorCategory
  | connection
  | authentication
  | queryCat
  | validation
  | security
  | timeout
  | driver
  | notFound
deriving DecidableEq, Repr

/-- `DatabaseError` from `errors.py`.  The wrapped original exception is
modelled by its text (`str(original_error)`); `none` models Python `None`.
The extra instance attributes of `TimeoutError` / `NotFoundError`
(`timeout_seconds`, `resource_type`, `resource_name`) are not read by any of
the code under verification and are kept as constructor arguments only. -/
structure DatabaseError where
  message : String
  category : ErrorCategory
  recoverable : Bool
  originalError : Option String
deriving DecidableEq, Repr

/-- Single-quote character, used to build message texts verbatim. -/
def sq : String := String.singleton (Char.ofNat 39)

/-- `ConnectionError` constructor: category connection, recoverable. -/
def ConnectionError (message : String) (originalError : Option String) :
    DatabaseError :=
  ⟨message, ErrorCategory.connection, true, originalError⟩

/-- `AuthenticationError` constructor: category authentication, not recoverable. -/
def AuthenticationError (message : String) (originalError : Option String) :
    DatabaseError :=
  ⟨message, ErrorCategory.authentication, false, originalError⟩

/-- `QueryError` constructor: category query, not recoverable. -/
def QueryError (message : String) (originalError : Option String) :
    DatabaseError :=
  ⟨message, ErrorCategory.queryCat, false, originalError⟩

/-- `ValidationError` constructor: category validation, not recoverable. -/
def ValidationError (message : String) : DatabaseError :=
  ⟨message, ErrorCategory.validation, false, none⟩

/-- `SecurityError` constructor: category security, not recoverable. -/
def SecurityError (message : String) : DatabaseError :=
  ⟨message, ErrorCategory.security, false, none⟩

/-- `TimeoutError` constructor: category timeout, recoverable. -/
def TimeoutError (message : String) (_timeoutSeconds : Nat) : DatabaseError :=
  ⟨message, ErrorCategory.timeout, true, none⟩

/-- `NotFoundError` constructor: category not-found, not recoverable. -/
def NotFoundError (message : String) (_resourceType _resourceName : String) :
    DatabaseError :=
  ⟨message, ErrorCategory.notFound, false, none⟩

/-- `map_driver_error` from `errors.py`: classify a native driver error by
substring patterns over the lower-cased error text.  `error` is the text
`str(error)` of the original exception. -/
def map_driver_error (error : List Char) (driverType : String) : DatabaseError :=
  let errorStr := error.map pyLower
  let fallback := QueryError ("Database error: " ++ String.mk error)
    (some (String.mk error))
  if driverType = "postgresql" then
    if containsSub "connection refused".toList errorStr then
      ConnectionError
        ("Cannot connect to PostgreSQL server. Check if the server is running " ++
          "and that the connection details are correct.")
        (some (String.mk error))
    else if containsSub "authentication failed".toList errorStr ||
        containsSub "password authentication failed".toList errorStr then
      AuthenticationError "Invalid username or password for PostgreSQL database."
        (some (String.mk error))
    else if containsSub "does not exist".toList errorStr then
      if containsSub "database".toList errorStr then
        NotFoundError "PostgreSQL database does not exist." "database" ""
      else
        NotFoundError "Table or column does not exist in the database."
          "table/column" ""
    else fallback
  else if driverType = "mysql" then
    if containsSub "access denied".toList errorStr then
      AuthenticationError "Access denied for MySQL user. Check username and password."
        (some (String.mk error))
    else if containsSub "unknown database".toList errorStr then
      NotFoundError "MySQL database does not exist." "database" ""
    else if containsSub ("can" ++ sq ++ "t connect").toList errorStr ||
        containsSub "connection refused".toList errorStr then
      ConnectionError
        ("Cannot connect to MySQL server. Check if the server is running " ++
          "and connection details are correct.")
        (some (String.mk error))
    else fallback
  else if driverType = "sqlite" then
    if containsSub "no such table".toList errorStr then
      NotFoundError "Table does not exist in SQLite database." "table" ""
    else if containsSub "database is locked".toList errorStr then
      ConnectionError
        "SQLite database is locked by another process. Try again in a moment."
        (some (String.mk error))
    else if containsSub "unable to open database file".toList errorStr then
      ConnectionError
        "Cannot open SQLite database file. Check file path and permissions."
        (some (String.mk error))
    else fallback
  else if driverType = "db2" then
    if containsSub "sql0204n".toList errorStr then
      NotFoundError "Table or view not found in DB2 database." "table/view" ""
    else if containsSub "sql30081n".toList errorStr then
      ConnectionError
        ("Cannot connect to DB2 server. Check network connectivity " ++
          "and connection details.")
        (some (String.mk error))
    else if containsSub "sql30082n".toList errorStr then
      AuthenticationError "DB2 authentication failed. Check username and password."
        (some (String.mk error))
    else fallback
  else fallback

/-! ### Safety gate and parameter sanitizer (`database/base.py`) -/

/-- Outcome of `sqlparse.parse(query)`.  `sqlparse` is a third-party library,
so its result is an oracle input: `failed msg` models the call raising an
exception, `parsed ts` models a list of statements given by their
`get_type()` strings (`sqlparse` classifies a statement as e.g. `"SELECT"`,
`"INSERT"`, or `"UNKNOWN"`; the Python falsy values `None`/`""` are both
modelled by `""`). -/
inductive ParseResult
  | failed (msg : String)
  | parsed (stmtTypes : List String)
deriving DecidableEq, Repr

/-- The `dangerous_keywords` list of `_validate_query_safety`, in source order. -/
def dangerousKeywords : List String :=
  ["INSERT", "UPDATE", "DELETE", "DROP", "CREATE", "ALTER",
   "TRUNCATE", "GRANT", "REVOKE", "EXEC", "EXECUTE"]

/-- The space-padded whole-word test of `_validate_query_safety`:
Python `f' {keyword} ' in f' {query_upper} '`. -/
def keywordMatch (kw : String) (query : List Char) : Bool :=
  containsSub (' ' :: kw.toList ++ [' ']) (' ' :: query.map pyUpper ++ [' '])

/-- `DatabaseAdapter._validate_query_safety` from `database/base.py`.
`readOnly` is the adapter's `read_only` flag and `parse` the oracle outcome
of `sqlparse.parse(query)`.  The first guard `not query or not
query.strip()` is embedded as its equivalent `query = [] ∨ all characters
whitespace` (Python `str.strip()` yields a falsy value exactly when every
character is whitespace). -/
def validate_query_safety (readOnly : Bool) (query : List Char)
    (parse : ParseResult) : Except DatabaseError Unit :=
  if query.isEmpty || query.all pyIsSpace then
    Except.error (ValidationError "Query cannot be empty")
  else
    match parse with
    | ParseResult.failed e =>
      Except.error (ValidationError ("Invalid SQL syntax: " ++ e))
    | ParseResult.parsed [] =>
      Except.error (ValidationError "Could not parse SQL query")
    | ParseResult.parsed (t0 :: rest) =>
      if rest.length > 0 then
        Except.error (SecurityError
          "Multiple SQL statements are not allowed. Execute one query at a time.")
      else if containsSub "--".toList query || containsSub "/*".toList query then
        Except.error (SecurityError
          "SQL comments are not allowed in queries for security reasons.")
      else if readOnly then
        match dangerousKeywords.find? (fun kw => keywordMatch kw query) with
        | some kw =>
          Except.error (SecurityError
            ("Query contains " ++ sq ++ kw ++ sq ++
              " but server is in read-only mode. Only SELECT queries are allowed."))
        | none =>
          if t0 ≠ "" ∧ t0 ≠ "SELECT" ∧ t0 ≠ "UNKNOWN" then
            Except.error (SecurityError
              ("Only SELECT queries are allowed in read-only mode. Got: " ++ t0))
          else
            Except.ok ()
      else
        Except.ok ()

/-- `DatabaseAdapter._sanitize_parameter` from `database/base.py`.  A Python
scalar parameter value. -/
inductive Param
  | pyNone
  | pyStr (s : List Char)
  | pyInt (n : Int)
  | pyFloat (q : ℚ)
  | pyBool (b : Bool)
  | pyBytes (bs : List Nat)
deriving DecidableEq, Repr

/-- `_sanitize_parameter`: `None` passes through; strings have NUL characters
removed (`value.replace(chr(0), "")`) and are rejected if the resulting text
exceeds 10000 characters; every other value passes through. -/
def sanitize_parameter : Param → Except DatabaseError Param
  | Param.pyNone => Except.ok Param.pyNone
  | Param.pyStr s =>
    let s' := s.filter (fun c => c ≠ '\x00')
    if s'.length > 10000 then
      Except.error (ValidationError "Parameter value too long (max 10000 characters)")
    else
      Except.ok (Param.pyStr s')
  | v => Except.ok v

/-- `_sanitize_parameters`: Python `if not parameters: return None` treats a
missing tuple and an empty tuple alike; otherwise each element is sanitized
in order (the first failure propagates, as the generator consumed by
`tuple(...)` raises at the faulty element). -/
def sanitize_parameters : Option (List Param) → Except DatabaseError (Option (List Param))
  | none => Except.ok none
  | some ps =>
    if ps.isEmpty then Except.ok none
    else (ps.mapM sanitize_parameter).map some

/-! ### Value serializer (`utils.py`) -/

/-- A Python scalar as delivered by a database driver or returned by
`serialize_value`.  `vDecimal m e` is `decimal.Decimal` with value
`m / 10 ^ e`; `vFloat` is a machine float modelled as an exact rational;
`vBytes` / `vMemoryview` hold byte values (each < 256). -/
inductive Value
  | vNone
  | vDecimal (m : Int) (e : Nat)
  | vDate (y mo d : Nat)
  | vDatetime (y mo d h mi s : Nat)
  | vTime (h mi s : Nat)
  | vBytes (bs : List Nat)
  | vMemoryview (bs : List Nat)
  | vStr (s : List Char)
  | vInt (n : Int)
  | vFloat (q : ℚ)
  | vBool (b : Bool)
deriving DecidableEq, Repr

/-- `float(decimal.Decimal(...))` as an exact rational. -/
def decimalToFloat (m : Int) (e : Nat) : ℚ := (m : ℚ) / (10 : ℚ) ^ e

/-- Left-pad a digit list with zeros to width `w` (Python zero-padded formatting). -/
def padZeros (w : Nat) (s : List Char) : List Char :=
  List.replicate (w - s.length) '0' ++ s

/-- Decimal digits of `n`, most significant first. -/
def natDigits (n : Nat) : List Char := Nat.toDigits 10 n

/-- `datetime.date.isoformat()`: `YYYY-MM-DD`. -/
def isoDate (y mo d : Nat) : List Char :=
  padZeros 4 (natDigits y) ++ '-' :: padZeros 2 (natDigits mo) ++
    '-' :: padZeros 2 (natDigits d)

/-- `datetime.time.isoformat()` for whole-second times: `HH:MM:SS`
(the microsecond component, absent from the claims, is not modelled). -/
def isoTime (h mi s : Nat) : List Char :=
  padZeros 2 (natDigits h) ++ ':' :: padZeros 2 (natDigits mi) ++
    ':' :: padZeros 2 (natDigits s)

/-- `datetime.datetime.isoformat()` for whole-second timestamps:
`YYYY-MM-DDTHH:MM:SS`. -/
def isoDatetime (y mo d h mi s : Nat) : List Char :=
  isoDate y mo d ++ 'T' :: isoTime h mi s

/-- Admissible values of the first continuation byte after lead byte `b`
(RFC 3629 table, as enforced by Python `bytes.decode("utf-8")`: overlong
encodings, surrogates and code points above U+10FFFF are rejected). -/
def utf8Cont1OK (b b1 : Nat) : Bool :=
  if b = 0xE0 then 0xA0 ≤ b1 && b1 ≤ 0xBF
  else if b = 0xED then 0x80 ≤ b1 && b1 ≤ 0x9F
  else if b = 0xF0 then 0x90 ≤ b1 && b1 ≤ 0xBF
  else if b = 0xF4 then 0x80 ≤ b1 && b1 ≤ 0x8F
  else 0x80 ≤ b1 && b1 ≤ 0xBF

/-- A plain continuation byte. -/
def utf8ContOK (b : Nat) : Bool := 0x80 ≤ b && b ≤ 0xBF

/-- Strict UTF-8 decoding of a byte sequence, `none` when
`bytes.decode("utf-8")` raises `UnicodeDecodeError`. -/
def utf8Decode : List Nat → Option (List Char)
  | [] => some []
  | b :: rest =>
    if b ≤ 0x7F then
      (utf8Decode rest).map (fun cs => Char.ofNat b :: cs)
    else if 0xC2 ≤ b && b ≤ 0xDF then
      match rest with
      | b1 :: rest2 =>
        if utf8ContOK b1 then
          (utf8Decode rest2).map
            (fun cs => Char.ofNat ((b - 0xC0) * 0x40 + (b1 - 0x80)) :: cs)
        else none
      | [] => none
    else if 0xE0 ≤ b && b ≤ 0xEF then
      match rest with
      | b1 :: b2 :: rest3 =>
        if utf8Cont1OK b b1 && utf8ContOK b2 then
          (utf8Decode rest3).map
            (fun cs => Char.ofNat
              ((b - 0xE0) * 0x1000 + (b1 - 0x80) * 0x40 + (b2 - 0x80)) :: cs)
        else none
      | _ => none
    else if 0xF0 ≤ b && b ≤ 0xF4 then
      match rest with
      | b1 :: b2 :: b3 :: rest4 =>
        if utf8Cont1OK b b1 && utf8ContOK b2 && utf8ContOK b3 then
          (utf8Decode rest4).map
            (fun cs => Char.ofNat
              ((b - 0xF0) * 0x40000 + (b1 - 0x80) * 0x1000 +
                (b2 - 0x80) * 0x40 + (b3 - 0x80)) :: cs)
        else none
      | _ => none
    else none

/-- `bytes.decode("latin-1", errors="replace")`: each byte maps to the code
point of the same value; no byte can fail, so the `errors="replace"` mode
never substitutes anything. -/
def latin1Decode (bs : List Nat) : List Char := bs.map Char.ofNat

/-- The byte-to-text conversion of `serialize_value`: UTF-8 when the bytes
decode cleanly, Latin-1 otherwise. -/
def decodeBytes (bs : List Nat) : List Char :=
  match utf8Decode bs with
  | some cs => cs
  | none => latin1Decode bs

/-- `serialize_value` from `utils.py`: `None` passes through, decimals become
floats, dates/datetimes/times become ISO-8601 text, bytes and memoryviews
become text, everything else passes through unchanged. -/
def serialize_value : Value → Value
  | Value.vNone => Value.vNone
  | Value.vDecimal m e => Value.vFloat (decimalToFloat m e)
  | Value.vDate y mo d => Value.vStr (isoDate y mo d)
  | Value.vDatetime y mo d h mi s => Value.vStr (isoDatetime y mo d h mi s)
  | Value.vTime h mi s => Value.vStr (isoTime h mi s)
  | Value.vBytes bs => Value.vStr (decodeBytes bs)
  | Value.vMemoryview bs => Value.vStr (decodeBytes bs)
  | v => v

/-- Insertion into a Python `dict`: an existing key keeps its position and
receives the new value, a new key is appended. -/
def dictInsert (d : List (String × Value)) (k : String) (v : Value) :
    List (String × Value) :=
  if d.any (fun p => p.1 = k) then
    d.map (fun p => if p.1 = k then (k, v) else p)
  else
    d ++ [(k, v)]

/-- `serialize_row` from `utils.py`: the dict comprehension
`{col: serialize_value(val) for col, val in zip(columns, row)}`, with
Python dict insertion-order semantics. -/
def serialize_row (row : List Value) (columns : List String) :
    List (String × Value) :=
  (columns.zip row).foldl
    (fun d p => dictInsert d p.1 (serialize_value p.2)) []

/-! ### Adapters (`database/sqlite.py`, `postgresql.py`, `mysql.py`, `db2.py`)

Connection acquisition and cursor work are driver effects; each call site
receives their outcomes as oracle fields (`Except String _` with the error
text of the native driver exception).  `PyExc.driverError` models the
adapter's native exception class (`sqlite3.Error`, `psycopg2.Error`,
`MySQLError`, the generic `Exception` for ibm_db); `PyExc.dbError` models a
raised `jdbc_mcp_server.errors.DatabaseError`. -/

/-- An in-flight Python exception, as distinguished by the `except` clauses
of the adapters. -/
inductive PyExc
  | driverError (msg : String)
  | dbError (e : DatabaseError)
deriving DecidableEq, Repr

/-- The dictionary returned by `test_connection`. -/
structure ConnInfo where
  connected : Bool
  databaseType : String
  version : Option String := none
  databaseName : Option String := none
  tableCount : Option Nat := none
  error : Option String := none
deriving DecidableEq, Repr

/-- `SQLiteAdapter.get_connection`: `sqlite3.connect` may fail with a
`sqlite3.Error` (oracle `connectResult`); that failure — and any
`sqlite3.Error` escaping the managed block `body` — is re-raised as
`map_driver_error(e, "sqlite")`, a `DatabaseError`. -/
def sqlite_get_connection {α : Type} (connectResult : Except String Unit)
    (body : Except PyExc α) : Except PyExc α :=
  match connectResult with
  | Except.error e => Except.error (PyExc.dbError (map_driver_error e.toList "sqlite"))
  | Except.ok _ =>
    match body with
    | Except.error (PyExc.driverError e) =>
      Except.error (PyExc.dbError (map_driver_error e.toList "sqlite"))
    | r => r

/-- `PostgreSQLAdapter.get_connection`: raises `ConnectionError` when the
pool is missing; converts any `psycopg2.Error` (from `getconn` or from the
managed block) into `map_driver_error(e, "postgresql")`. -/
def postgresql_get_connection {α : Type} (poolInitialized : Bool)
    (getconnResult : Except String Unit) (body : Except PyExc α) :
    Except PyExc α :=
  if !poolInitialized then
    Except.error (PyExc.dbError (ConnectionError "Connection pool not initialized" none))
  else
    match getconnResult with
    | Except.error e =>
      Except.error (PyExc.dbError (map_driver_error e.toList "postgresql"))
    | Except.ok _ =>
      match body with
      | Except.error (PyExc.driverError e) =>
        Except.error (PyExc.dbError (map_driver_error e.toList "postgresql"))
      | r => r

/-- Driver-call outcomes consumed by `SQLiteAdapter.test_connection`. -/
structure SqliteTCWorld where
  connectResult : Except String Unit
  versionResult : Except String String
  tableCountResult : Except String Nat
deriving Repr

/-- `SQLiteAdapter.test_connection`: runs the version and table-count
queries under `get_connection`; the `except sqlite3.Error` clause turns a
`sqlite3.Error` into `{connected: false, error: str(e)}`, while any other
exception — in particular the `DatabaseError` that `get_connection`
substitutes for a `sqlite3.Error` — propagates outward. -/
def sqlite_test_connection (w : SqliteTCWorld) (dbPath : String) :
    Except PyExc ConnInfo :=
  let body : Except PyExc ConnInfo := do
    let version ← w.versionResult.mapError PyExc.driverError
    let cnt ← w.tableCountResult.mapError PyExc.driverError
    pure { connected := true, databaseType := "SQLite", version := some version,
           databaseName := some dbPath, tableCount := some cnt }
  match sqlite_get_connection w.connectResult body with
  | Except.error (PyExc.driverError e) =>
    Except.ok { connected := false, databaseType := "SQLite", error := some e }
  | r => r

/-- Driver-call outcomes consumed by `PostgreSQLAdapter.test_connection`. -/
structure PgTCWorld where
  poolInitialized : Bool
  getconnResult : Except String Unit
  versionResult : Except String String
  currentDatabaseResult : Except String String
  tableCountResult : Except String Nat
deriving Repr

/-- `PostgreSQLAdapter.test_connection`: same shape as the SQLite adapter;
`except psycopg2.Error` turns a native error into `{connected: false}`,
anything else — the pool-missing `ConnectionError` and every
`map_driver_error`-wrapped failure — propagates outward. -/
def postgresql_test_connection (w : PgTCWorld) : Except PyExc ConnInfo :=
  let body : Except PyExc ConnInfo := do
    let versionString ← w.versionResult.mapError PyExc.driverError
    let version := if versionString.toList.contains ' ' then
        (versionString.splitOn " ").getD 1 "" else versionString
    let dbName ← w.currentDatabaseResult.mapError PyExc.driverError
    let cnt ← w.tableCountResult.mapError PyExc.driverError
    pure { connected := true, databaseType := "PostgreSQL", version := some version,
           databaseName := some dbName, tableCount := some cnt }
  match postgresql_get_connection w.poolInitialized w.getconnResult body with
  | Except.error (PyExc.driverError e) =>
    Except.ok { connected := false, databaseType := "PostgreSQL", error := some e }
  | r => r

/-- The cursor work done by an adapter's `execute_query` (execute +
fetchall + column names) as one oracle: given the query text and the
parameter binding actually passed (`none` models the no-parameter overload
`cursor.execute(query)`), yields the column names and raw driver rows, or
the text of a native driver error. -/
def DriverRun : Type :=
  List Char → Option (List Param) → Except String (List String × List (List Value))

/-- Python truthiness applied to the sanitized parameters at the call
`if parameters: cursor.execute(query, parameters) else: ...`. -/
def truthyParams : Option (List Param) → Option (List Param)
  | some l => if l.isEmpty then none else some l
  | none => none

/-- Body of `SQLiteAdapter.execute_query` from validation to the row
dictionaries, under `get_connection`, with the outer `except sqlite3.Error`
re-raise. -/
def sqlite_driver_stage (connectResult : Except String Unit) (run : DriverRun)
    (query : List Char) (callParams : Option (List Param)) :
    Except PyExc (List (List (String × Value))) :=
  let body : Except PyExc (List (List (String × Value))) :=
    match run query callParams with
    | Except.error e => Except.error (PyExc.driverError e)
    | Except.ok (columns, rows) =>
      Except.ok (rows.map (fun r => serialize_row r columns))
  match sqlite_get_connection connectResult body with
  | Except.error (PyExc.driverError e) =>
    Except.error (PyExc.dbError (map_driver_error e.toList "sqlite"))
  | r => r

/-- `SQLiteAdapter.execute_query`: validate, sanitize, then run the driver
stage with the (truthiness-filtered) sanitized parameters. -/
def sqlite_execute_query (connectResult : Except String Unit) (run : DriverRun)
    (readOnly : Bool) (query : List Char) (parse : ParseResult)
    (parameters : Option (List Param)) :
    Except PyExc (List (List (String × Value))) :=
  match validate_query_safety readOnly query parse with
  | Except.error e => Except.error (PyExc.dbError e)
  | Except.ok _ =>
    match sanitize_parameters parameters with
    | Except.error e => Except.error (PyExc.dbError e)
    | Except.ok ps => sqlite_driver_stage connectResult run query (truthyParams ps)

/-- Body of `PostgreSQLAdapter.execute_query`: when `read_only` is set a
`SET TRANSACTION READ ONLY` statement runs first (oracle
`setReadOnlyResult`), then the cursor work, under `get_connection`, with
the outer `except psycopg2.Error` re-raise. -/
def postgresql_driver_stage (poolInitialized : Bool)
    (getconnResult setReadOnlyResult : Except String Unit) (run : DriverRun)
    (readOnly : Bool) (query : List Char) (callParams : Option (List Param)) :
    Except PyExc (List (List (String × Value))) :=
  let body : Except PyExc (List (List (String × Value))) :=
    match (if readOnly then setReadOnlyResult else Except.ok ()) with
    | Except.error e => Except.error (PyExc.driverError e)
    | Except.ok _ =>
      match run query callParams with
      | Except.error e => Except.error (PyExc.driverError e)
      | Except.ok (columns, rows) =>
        Except.ok (rows.map (fun r => serialize_row r columns))
  match postgresql_get_connection poolInitialized getconnResult body with
  | Except.error (PyExc.driverError e) =>
    Except.error (PyExc.dbError (map_driver_error e.toList "postgresql"))
  | r => r

/-- `PostgreSQLAdapter.execute_query`. -/
def postgresql_execute_query (poolInitialized : Bool)
    (getconnResult setReadOnlyResult : Except String Unit) (run : DriverRun)
    (readOnly : Bool) (query : List Char) (parse : ParseResult)
    (parameters : Option (List Param)) :
    Except PyExc (List (List (String × Value))) :=
  match validate_query_safety readOnly query parse with
  | Except.error e => Except.error (PyExc.dbError e)
  | Except.ok _ =>
    match sanitize_parameters parameters with
    | Except.error e => Except.error (PyExc.dbError e)
    | Except.ok ps =>
      postgresql_driver_stage poolInitialized getconnResult setReadOnlyResult
        run readOnly query (truthyParams ps)

/-- `MySQLAdapter.get_connection`: identical shape to the PostgreSQL one,
with `MySQLError` as the native class and `driver_type = "mysql"`. -/
def mysql_get_connection {α : Type} (poolInitialized : Bool)
    (getconnResult : Except String Unit) (body : Except PyExc α) :
    Except PyExc α :=
  if !poolInitialized then
    Except.error (PyExc.dbError (ConnectionError "Connection pool not initialized" none))
  else
    match getconnResult with
    | Except.error e =>
      Except.error (PyExc.dbError (map_driver_error e.toList "mysql"))
    | Except.ok _ =>
      match body with
      | Except.error (PyExc.driverError e) =>
        Except.error (PyExc.dbError (map_driver_error e.toList "mysql"))
      | r => r

/-- Body of `MySQLAdapter.execute_query`: `SET SESSION TRANSACTION READ
ONLY` first when `read_only`, then the cursor work. -/
def mysql_driver_stage (poolInitialized : Bool)
    (getconnResult setReadOnlyResult : Except String Unit) (run : DriverRun)
    (readOnly : Bool) (query : List Char) (callParams : Option (List Param)) :
    Except PyExc (List (List (String × Value))) :=
  let body : Except PyExc (List (List (String × Value))) :=
    match (if readOnly then setReadOnlyResult else Except.ok ()) with
    | Except.error e => Except.error (PyExc.driverError e)
    | Except.ok _ =>
      match run query callParams with
      | Except.error e => Except.error (PyExc.driverError e)
      | Except.ok (columns, rows) =>
        Except.ok (rows.map (fun r => serialize_row r columns))
  match mysql_get_connection poolInitialized getconnResult body with
  | Except.error (PyExc.driverError e) =>
    Except.error (PyExc.dbError (map_driver_error e.toList "mysql"))
  | r => r

/-- `MySQLAdapter.execute_query`. -/
def mysql_execute_query (poolInitialized : Bool)
    (getconnResult setReadOnlyResult : Except String Unit) (run : DriverRun)
    (readOnly : Bool) (query : List Char) (parse : ParseResult)
    (parameters : Option (List Param)) :
    Except PyExc (List (List (String × Value))) :=
  match validate_query_safety readOnly query parse with
  | Except.error e => Except.error (PyExc.dbError e)
  | Except.ok _ =>
    match sanitize_parameters parameters with
    | Except.error e => Except.error (PyExc.dbError e)
    | Except.ok ps =>
      mysql_driver_stage poolInitialized getconnResult setReadOnlyResult
        run readOnly query (truthyParams ps)

/-- `DB2Adapter.get_connection`: raises `ConnectionError` when no
connections were pre-created; the `except Exception` clause converts ANY
exception escaping the managed block into `map_driver_error(e, "db2")`
(for an in-flight `DatabaseError` the original text `str(e)` is its
message). -/
def db2_get_connection {α : Type} (poolInitialized : Bool)
    (body : Except PyExc α) : Except PyExc α :=
  if !poolInitialized then
    Except.error (PyExc.dbError (ConnectionError "Connection pool not initialized" none))
  else
    match body with
    | Except.error (PyExc.driverError e) =>
      Except.error (PyExc.dbError (map_driver_error e.toList "db2"))
    | Except.error (PyExc.dbError e) =>
      Except.error (PyExc.dbError (map_driver_error e.message.toList "db2"))
    | r => r

/-- Body of `DB2Adapter.execute_query`: cursor work under
`get_connection`; the outer `except Exception` also catches every
exception class. -/
def db2_driver_stage (poolInitialized : Bool) (run : DriverRun)
    (query : List Char) (callParams : Option (List Param)) :
    Except PyExc (List (List (String × Value))) :=
  let body : Except PyExc (List (List (String × Value))) :=
    match run query callParams with
    | Except.error e => Except.error (PyExc.driverError e)
    | Except.ok (columns, rows) =>
      Except.ok (rows.map (fun r => serialize_row r columns))
  match db2_get_connection poolInitialized body with
  | Except.error (PyExc.driverError e) =>
    Except.error (PyExc.dbError (map_driver_error e.toList "db2"))
  | Except.error (PyExc.dbError e) =>
    Except.error (PyExc.dbError (map_driver_error e.message.toList "db2"))
  | r => r

/-- `DB2Adapter.execute_query`. -/
def db2_execute_query (poolInitialized : Bool) (run : DriverRun)
    (readOnly : Bool) (query : List Char) (parse : ParseResult)
    (parameters : Option (List Param)) :
    Except PyExc (List (List (String × Value))) :=
  match validate_query_safety readOnly query parse with
  | Except.error e => Except.error (PyExc.dbError e)
  | Except.ok _ =>
    match sanitize_parameters parameters with
    | Except.error e => Except.error (PyExc.dbError e)
    | Except.ok ps => db2_driver_stage poolInitialized run query (truthyParams ps)

/-! ### Helper lemmas for the safety-gate theorems -/

theorem pyIsSpace_cases {c : Char} (h : pyIsSpace c = true) :
    c = ' ' ∨ c = '\t' ∨ c = '\n' ∨ c = '\r' ∨ c = '\x0b' ∨ c = '\x0c' := by
  simpa [pyIsSpace, or_assoc] using h

theorem pyUpper_of_space {c : Char} (h : pyIsSpace c = true) : pyUpper c = c := by
  rcases pyIsSpace_cases h with rfl | rfl | rfl | rfl | rfl | rfl <;> decide

theorem guard_false_of_nonspace {q : List Char}
    (h : ∃ c ∈ q, pyIsSpace c = false) :
    (q.isEmpty || q.all pyIsSpace) = false := by
  obtain ⟨c, hc, hns⟩ := h
  have h1 : q.isEmpty = false := by
    cases q with
    | nil => cases hc
    | cons a as => rfl
  have h2 : q.all pyIsSpace = false := by
    cases hq : q.all pyIsSpace with
    | false => rfl
    | true => exact absurd (List.all_eq_true.mp hq c hc) (by simp [hns])
  simp [h1, h2]

theorem exists_nonspace_of_keywordMatch {kw : String} {q : List Char}
    (hkw : kw ∈ dangerousKeywords) (hm : keywordMatch kw q = true) :
    ∃ c ∈ q, pyIsSpace c = false := by
  have hletter : kw.toList.any (fun c => decide ('A' ≤ c) && decide (c ≤ 'Z')) = true := by
    simp only [dangerousKeywords, List.mem_cons, List.not_mem_nil, or_false] at hkw
    rcases hkw with rfl | rfl | rfl | rfl | rfl | rfl | rfl | rfl | rfl | rfl | rfl <;> decide
  obtain ⟨c0, hc0mem, hc0⟩ := List.any_eq_true.mp hletter
  have hA : 'A' ≤ c0 ∧ c0 ≤ 'Z' := by simpa using hc0
  have hc0needle : c0 ∈ (' ' :: kw.toList ++ [' ']) :=
    List.mem_cons_of_mem _ (List.mem_append_left _ hc0mem)
  have hmem := mem_of_containsSub hm c0 hc0needle
  have hc0ne : c0 ≠ ' ' := by
    rintro rfl
    exact absurd hA (by decide)
  rcases List.mem_cons.mp hmem with h1 | h2
  · exact absurd h1 hc0ne
  rcases List.mem_append.mp h2 with h3 | h4
  · obtain ⟨c, hcq, hcup⟩ := List.mem_map.mp h3
    refine ⟨c, hcq, ?_⟩
    cases hsp : pyIsSpace c with
    | false => rfl
    | true =>
      exfalso
      rw [pyUpper_of_space hsp] at hcup
      subst hcup
      rcases pyIsSpace_cases hsp with rfl | rfl | rfl | rfl | rfl | rfl <;>
        exact absurd hA (by decide)
  · have : c0 = ' ' := by simpa using h4
    exact absurd this hc0ne

/-- Claim C1's reading of the whole-word condition, transcribed from the
claim text (not from the source): the keyword appears in the upper-cased
query with SOME whitespace character (space, tab, newline, ...) on each
side. -/
def claimKeywordWholeWordWS (kw : String) (q : List Char) : Bool :=
  ([' ', '\t', '\n', '\r', '\x0b', '\x0c'] : List Char).any fun w1 =>
    ([' ', '\t', '\n', '\r', '\x0b', '\x0c'] : List Char).any fun w2 =>
      containsSub (w1 :: kw.toList ++ [w2]) (q.map pyUpper)

/-- Claim C1 as stated is false: the query `"SELECT x\tDELETE\ty FROM t"`
contains `DELETE` as a whole word surrounded by whitespace (tabs), the
adapter is read-only, yet `_validate_query_safety` accepts the query,
because the keyword scan only matches keywords padded by plain spaces and
`sqlparse` classifies the statement as a `SELECT` (shown for both the
`"SELECT"` and `"UNKNOWN"` classification oracles). -/
theorem c1_keyword_whitespace_counterexample :
    claimKeywordWholeWordWS "DELETE" "SELECT x\tDELETE\ty FROM t".toList = true ∧
    validate_query_safety true "SELECT x\tDELETE\ty FROM t".toList
      (ParseResult.parsed ["SELECT"]) = Except.ok () ∧
    validate_query_safety true "SELECT x\tDELETE\ty FROM t".toList
      (ParseResult.parsed ["UNKNOWN"]) = Except.ok () := by
  refine ⟨by decide, by rfl, by rfl⟩

/-- Claim C1 amended: for a read-only adapter, whenever the query contains a
banned keyword as a whole word padded by SPACES in the space-padded
upper-cased text (equivalently: delimited by spaces or the ends of the
query), and `sqlparse` yields at least one statement, `_validate_query_safety`
fails with an error of category security. -/
theorem c1_amended_space_padded_keyword_security
    (q : List Char) (kw t0 : String) (rest : List String)
    (hkw : kw ∈ dangerousKeywords) (hm : keywordMatch kw q = true) :
    ∃ e, validate_query_safety true q (ParseResult.parsed (t0 :: rest)) =
        Except.error e ∧ e.category = ErrorCategory.security := by
  have hguard := guard_false_of_nonspace (exists_nonspace_of_keywordMatch hkw hm)
  unfold validate_query_safety
  rw [hguard]
  cases rest with
  | cons r rs =>
    exact ⟨SecurityError
      "Multiple SQL statements are not allowed. Execute one query at a time.",
      by simp, rfl⟩
  | nil =>
    cases hcom : (containsSub "--".toList q || containsSub "/*".toList q) with
    | true =>
      refine ⟨SecurityError
        "SQL comments are not allowed in queries for security reasons.", ?_, rfl⟩
      simp only [Bool.false_eq_true, if_false]
      have h1 : ¬(([] : List String).length > 0) := by simp
      rw [if_neg h1, if_pos True.intro]
    | false =>
      have hfind : (dangerousKeywords.find? (fun k => keywordMatch k q)).isSome :=
        List.find?_isSome.mpr ⟨kw, hkw, hm⟩
      obtain ⟨kw', hkw'⟩ := Option.isSome_iff_exists.mp hfind
      refine ⟨SecurityError ("Query contains " ++ sq ++ kw' ++ sq ++
          " but server is in read-only mode. Only SELECT queries are allowed."), ?_, rfl⟩
      simp only [Bool.false_eq_true, if_false]
      have h1 : ¬(([] : List String).length > 0) := by simp
      rw [if_neg h1, if_pos True.intro, hkw']

/-- Witness for the amended claim C1 at a concrete input. -/
theorem c1_amended_witness :
    "INSERT" ∈ dangerousKeywords ∧
    keywordMatch "INSERT" "insert into t values (1)".toList = true ∧
    ∃ e, validate_query_safety true "insert into t values (1)".toList
        (ParseResult.parsed ["INSERT"]) = Except.error e ∧
      e.category = ErrorCategory.security :=
  ⟨by decide, by decide,
    c1_amended_space_padded_keyword_security _ "INSERT" "INSERT" []
      (by decide) (by decide)⟩

/-- Claim C3: a query containing `--` or `/*` anywhere is rejected with a
security-category error, whether or not the adapter is read-only, whenever
`sqlparse` yields at least one statement (as it does on every nonempty
input). -/
theorem c3_comment_marker_security
    (ro : Bool) (q : List Char) (t0 : String) (rest : List String)
    (hc : containsSub "--".toList q = true ∨ containsSub "/*".toList q = true) :
    ∃ e, validate_query_safety ro q (ParseResult.parsed (t0 :: rest)) =
        Except.error e ∧ e.category = ErrorCategory.security := by
  have hns : ∃ c ∈ q, pyIsSpace c = false := by
    rcases hc with h | h
    · exact ⟨'-', mem_of_containsSub h '-' (by decide), by decide⟩
    · exact ⟨'/', mem_of_containsSub h '/' (by decide), by decide⟩
  have hguard := guard_false_of_nonspace hns
  unfold validate_query_safety
  rw [hguard]
  cases rest with
  | cons r rs =>
    exact ⟨SecurityError
      "Multiple SQL statements are not allowed. Execute one query at a time.",
      by simp, rfl⟩
  | nil =>
    have hcom : (containsSub "--".toList q || containsSub "/*".toList q) = true := by
      rcases hc with h | h
      · rw [h]; rfl
      · rw [h]; simp
    refine ⟨SecurityError
      "SQL comments are not allowed in queries for security reasons.", ?_, rfl⟩
    simp only [Bool.false_eq_true, if_false]
    have h1 : ¬(([] : List String).length > 0) := by simp
    rw [if_neg h1, if_pos hcom]

/-- Witness for claim C3 at a concrete input (read-write mode, line comment). -/
theorem c3_witness :
    containsSub "--".toList "SELECT 1 -- hidden".toList = true ∧
    ∃ e, validate_query_safety false "SELECT 1 -- hidden".toList
        (ParseResult.parsed ["SELECT"]) = Except.error e ∧
      e.category = ErrorCategory.security :=
  ⟨by decide,
    c3_comment_marker_security false _ "SELECT" [] (Or.inl (by decide))⟩

/-! ### Error-classifier theorems -/

/-- The per-backend substring tables of `map_driver_error`, collected for
stating the no-pattern-matches fallback. -/
def patternsFor (driverType : String) : List (List Char) :=
  if driverType = "postgresql" then
    ["connection refused".toList, "authentication failed".toList,
     "password authentication failed".toList, "does not exist".toList]
  else if driverType = "mysql" then
    ["access denied".toList, "unknown database".toList,
     ("can" ++ sq ++ "t connect").toList, "connection refused".toList]
  else if driverType = "sqlite" then
    ["no such table".toList, "database is locked".toList,
     "unable to open database file".toList]
  else if driverType = "db2" then
    ["sql0204n".toList, "sql30081n".toList, "sql30082n".toList]
  else []

theorem containsSub_lower_of_containsSub {pat e : List Char}
    (hpat : pat.map pyLower = pat) (h : containsSub pat e = true) :
    containsSub pat (e.map pyLower) = true := by
  have := containsSub_map pyLower h
  rwa [hpat] at this

/-- Claim C5: the classifier sends a PostgreSQL error containing
`connection refused` to category connection with `recoverable = true`, a
MySQL error containing `access denied` to category authentication with
`recoverable = false`, and any error matching none of the per-backend
patterns to the generic query category, not recoverable.  (The function is
total, so it never throws.) -/
theorem c5_map_driver_error_classification :
    (∀ e : List Char, containsSub "connection refused".toList e = true →
      (map_driver_error e "postgresql").category = ErrorCategory.connection ∧
      (map_driver_error e "postgresql").recoverable = true) ∧
    (∀ e : List Char, containsSub "access denied".toList e = true →
      (map_driver_error e "mysql").category = ErrorCategory.authentication ∧
      (map_driver_error e "mysql").recoverable = false) ∧
    (∀ (e : List Char) (dt : String),
      (patternsFor dt).all (fun p => !containsSub p (e.map pyLower)) = true →
      map_driver_error e dt =
        QueryError ("Database error: " ++ String.mk e) (some (String.mk e))) := by
  refine ⟨?_, ?_, ?_⟩
  · intro e h
    have h' : containsSub "connection refused".toList (e.map pyLower) = true :=
      containsSub_lower_of_containsSub (by decide) h
    unfold map_driver_error
    rw [if_pos rfl, if_pos h']
    exact ⟨rfl, rfl⟩
  · intro e h
    have h' : containsSub "access denied".toList (e.map pyLower) = true :=
      containsSub_lower_of_containsSub (by decide) h
    unfold map_driver_error
    rw [if_neg (by decide), if_pos rfl, if_pos h']
    exact ⟨rfl, rfl⟩
  · intro e dt hall
    have hface : ∀ p ∈ patternsFor dt, containsSub p (e.map pyLower) = false := by
      intro p hp
      have h := List.all_eq_true.mp hall p hp
      simpa using h
    unfold map_driver_error
    by_cases h1 : dt = "postgresql"
    · subst h1
      have hA := hface "connection refused".toList (by decide)
      have hB := hface "authentication failed".toList (by decide)
      have hC := hface "password authentication failed".toList (by decide)
      have hD := hface "does not exist".toList (by decide)
      rw [if_pos rfl, if_neg (by rw [hA]; decide), if_neg (by rw [hB, hC]; decide),
        if_neg (by rw [hD]; decide)]
    · rw [if_neg h1]
      by_cases h2 : dt = "mysql"
      · subst h2
        have hA := hface "access denied".toList (by decide)
        have hB := hface "unknown database".toList (by decide)
        have hC := hface ("can" ++ sq ++ "t connect").toList (by decide)
        have hD := hface "connection refused".toList (by decide)
        rw [if_pos rfl, if_neg (by rw [hA]; decide), if_neg (by rw [hB]; decide),
          if_neg (by rw [hC, hD]; decide)]
      · rw [if_neg h2]
        by_cases h3 : dt = "sqlite"
        · subst h3
          have hA := hface "no such table".toList (by decide)
          have hB := hface "database is locked".toList (by decide)
          have hC := hface "unable to open database file".toList (by decide)
          rw [if_pos rfl, if_neg (by rw [hA]; decide), if_neg (by rw [hB]; decide),
            if_neg (by rw [hC]; decide)]
        · rw [if_neg h3]
          by_cases h4 : dt = "db2"
          · subst h4
            have hA := hface "sql0204n".toList (by decide)
            have hB := hface "sql30081n".toList (by decide)
            have hC := hface "sql30082n".toList (by decide)
            rw [if_pos rfl, if_neg (by rw [hA]; decide), if_neg (by rw [hB]; decide),
              if_neg (by rw [hC]; decide)]
          · rw [if_neg h4]

/-- Witness for claim C5 at concrete inputs. -/
theorem c5_witness :
    containsSub "connection refused".toList "connection refused by host".toList = true ∧
    ((map_driver_error "connection refused by host".toList "postgresql").category =
        ErrorCategory.connection ∧
      (map_driver_error "connection refused by host".toList "postgresql").recoverable = true) ∧
    containsSub "access denied".toList "access denied for user root".toList = true ∧
    ((map_driver_error "access denied for user root".toList "mysql").category =
        ErrorCategory.authentication ∧
      (map_driver_error "access denied for user root".toList "mysql").recoverable = false) ∧
    (patternsFor "postgresql").all
      (fun p => !containsSub p ("boom".toList.map pyLower)) = true ∧
    map_driver_error "boom".toList "postgresql" =
      QueryError ("Database error: " ++ String.mk "boom".toList)
        (some (String.mk "boom".toList)) :=
  ⟨by decide,
    c5_map_driver_error_classification.1 _ (by decide),
    by decide,
    c5_map_driver_error_classification.2.1 _ (by decide),
    by decide,
    c5_map_driver_error_classification.2.2 _ "postgresql" (by decide)⟩

/-- Whether an error's recoverability flag agrees with the claimed
category rule: recoverable exactly for connection and timeout. -/
def recoverableConsistent (err : DatabaseError) : Prop :=
  err.recoverable = true ↔
    (err.category = ErrorCategory.connection ∨ err.category = ErrorCategory.timeout)

/-- Claim C6: every error produced by the constructors of `errors.py` or by
`map_driver_error` is recoverable exactly when its category is connection
or timeout. -/
theorem c6_recoverable_iff_connection_or_timeout :
    (∀ m o, recoverableConsistent (ConnectionError m o)) ∧
    (∀ m o, recoverableConsistent (AuthenticationError m o)) ∧
    (∀ m o, recoverableConsistent (QueryError m o)) ∧
    (∀ m, recoverableConsistent (ValidationError m)) ∧
    (∀ m, recoverableConsistent (SecurityError m)) ∧
    (∀ m ts, recoverableConsistent (TimeoutError m ts)) ∧
    (∀ m rt rn, recoverableConsistent (NotFoundError m rt rn)) ∧
    (∀ (e : List Char) (dt : String), recoverableConsistent (map_driver_error e dt)) := by
  refine ⟨fun m o => by simp [recoverableConsistent, ConnectionError],
    fun m o => by simp [recoverableConsistent, AuthenticationError],
    fun m o => by simp [recoverableConsistent, QueryError],
    fun m => by simp [recoverableConsistent, ValidationError],
    fun m => by simp [recoverableConsistent, SecurityError],
    fun m ts => by simp [recoverableConsistent, TimeoutError],
    fun m rt rn => by simp [recoverableConsistent, NotFoundError],
    ?_⟩
  intro e dt
  simp only [map_driver_error]
  split_ifs <;>
    simp [recoverableConsistent, ConnectionError, AuthenticationError,
      QueryError, NotFoundError]

/-! ### Value-serializer theorems -/

/-- Claim C7: `serialize_value` applies its rules in the source order —
`None` passes through, a decimal becomes a float (with
`serialize(Decimal("12.50")) = 12.5`), a date becomes its ISO-8601 string
(with `serialize(date(2024,1,1)) = "2024-01-01"`), bytes that are not valid
UTF-8 are decoded via Latin-1 (never raising), cleanly-decoding bytes via
UTF-8, and every other value is returned unchanged. -/
theorem c7_serialize_value_rules :
    serialize_value Value.vNone = Value.vNone ∧
    serialize_value (Value.vDecimal 1250 2) = Value.vFloat (25 / 2 : ℚ) ∧
    (∀ m e, serialize_value (Value.vDecimal m e) = Value.vFloat (decimalToFloat m e)) ∧
    serialize_value (Value.vDate 2024 1 1) = Value.vStr "2024-01-01".toList ∧
    (∀ bs, utf8Decode bs = none →
      serialize_value (Value.vBytes bs) = Value.vStr (latin1Decode bs)) ∧
    (∀ bs cs, utf8Decode bs = some cs →
      serialize_value (Value.vBytes bs) = Value.vStr cs) ∧
    (∀ s, serialize_value (Value.vStr s) = Value.vStr s) ∧
    (∀ n, serialize_value (Value.vInt n) = Value.vInt n) ∧
    (∀ q, serialize_value (Value.vFloat q) = Value.vFloat q) ∧
    (∀ b, serialize_value (Value.vBool b) = Value.vBool b) := by
  refine ⟨rfl, ?_, fun m e => rfl, by decide, ?_, ?_,
    fun s => rfl, fun n => rfl, fun q => rfl, fun b => rfl⟩
  · show Value.vFloat (decimalToFloat 1250 2) = Value.vFloat (25 / 2 : ℚ)
    norm_num [decimalToFloat]
  · intro bs h
    simp [serialize_value, decodeBytes, h]
  · intro bs cs h
    simp [serialize_value, decodeBytes, h]

/-- Witness for claim C7: a byte that is invalid UTF-8 goes through
Latin-1, a valid UTF-8 byte sequence decodes as UTF-8. -/
theorem c7_witness :
    utf8Decode [0xFF] = none ∧
    serialize_value (Value.vBytes [0xFF]) = Value.vStr (latin1Decode [0xFF]) ∧
    utf8Decode [0x41] = some ['A'] ∧
    serialize_value (Value.vBytes [0x41]) = Value.vStr ['A'] :=
  ⟨by decide,
    c7_serialize_value_rules.2.2.2.2.1 [0xFF] (by decide),
    by decide,
    c7_serialize_value_rules.2.2.2.2.2.1 [0x41] ['A'] (by decide)⟩

/-- Claim C8 as stated is false for duplicate column names: the Python dict
comprehension collapses them, so the keys of the result are not the given
column list. -/
theorem c8_duplicate_columns_counterexample :
    serialize_row [Value.vInt 1, Value.vInt 2] ["a", "a"] = [("a", Value.vInt 2)] ∧
    (serialize_row [Value.vInt 1, Value.vInt 2] ["a", "a"]).map Prod.fst ≠ ["a", "a"] := by
  refine ⟨by decide, by decide⟩

theorem serialize_row_loop (l : List (String × Value)) (d : List (String × Value))
    (hfresh : ∀ p ∈ l, ∀ p' ∈ d, p.1 ≠ p'.1)
    (hnd : (l.map Prod.fst).Nodup) :
    l.foldl (fun acc p => dictInsert acc p.1 (serialize_value p.2)) d
      = d ++ l.map (fun p => (p.1, serialize_value p.2)) := by
  induction l generalizing d with
  | nil => simp
  | cons a l ih =>
    have hnot : d.any (fun p => p.1 = a.1) = false := by
      cases hd : d.any (fun p => p.1 = a.1) with
      | false => rfl
      | true =>
        obtain ⟨p', hp', he⟩ := List.any_eq_true.mp hd
        have he' : p'.1 = a.1 := by simpa using he
        exact absurd he'.symm (hfresh a (List.mem_cons_self a l) p' hp')
    have hstep : dictInsert d a.1 (serialize_value a.2) = d ++ [(a.1, serialize_value a.2)] := by
      rw [dictInsert, if_neg (by simp [hnot])]
    simp only [List.foldl_cons, hstep]
    rw [ih (d ++ [(a.1, serialize_value a.2)]) ?_ ?_]
    · simp
    · intro p hp p' hp'
      rcases List.mem_append.mp hp' with h | h
      · exact hfresh p (List.mem_cons_of_mem a hp) p' h
      · have hp1 : p' = (a.1, serialize_value a.2) := by simpa using h
        subst hp1
        have := (List.nodup_cons.mp hnd).1
        intro hcontra
        exact this (by
          rw [← hcontra]
          exact List.mem_map_of_mem Prod.fst hp)
    · exact (List.nodup_cons.mp hnd).2

/-- Claim C8 amended: for a row and a column-name list of equal length with
pairwise distinct names, `serialize_row` returns the ordered mapping whose
keys are exactly the column names in order and whose i-th value is
`serialize_value` of the i-th row element. -/
theorem c8_amended_serialize_row_nodup (row : List Value) (columns : List String)
    (hlen : columns.length = row.length) (hnodup : columns.Nodup) :
    serialize_row row columns =
      (columns.zip row).map (fun p => (p.1, serialize_value p.2)) ∧
    (serialize_row row columns).map Prod.fst = columns := by
  have hkeys : (columns.zip row).map Prod.fst = columns :=
    List.map_fst_zip columns row (le_of_eq hlen)
  have hmain : serialize_row row columns =
      (columns.zip row).map (fun p => (p.1, serialize_value p.2)) := by
    rw [serialize_row, serialize_row_loop (columns.zip row) []
      (by intro p hp p' hp'; cases hp') (by rw [hkeys]; exact hnodup)]
    simp
  refine ⟨hmain, ?_⟩
  rw [hmain, List.map_map]
  have : (Prod.fst ∘ fun p : String × Value => (p.1, serialize_value p.2)) = Prod.fst := by
    funext p; rfl
  rw [this, hkeys]

/-- Witness for the amended claim C8, matching the claim's own example. -/
theorem c8_amended_witness :
    (["id", "name"] : List String).length = [Value.vInt 1, Value.vStr ['a']].length ∧
    (["id", "name"] : List String).Nodup ∧
    (serialize_row [Value.vInt 1, Value.vStr ['a']] ["id", "name"] =
      ((["id", "name"] : List String).zip [Value.vInt 1, Value.vStr ['a']]).map
        (fun p => (p.1, serialize_value p.2)) ∧
    (serialize_row [Value.vInt 1, Value.vStr ['a']] ["id", "name"]).map Prod.fst =
      ["id", "name"]) :=
  ⟨by decide, by decide,
    c8_amended_serialize_row_nodup [Value.vInt 1, Value.vStr ['a']] ["id", "name"]
      (by decide) (by decide)⟩

/-! ### Parameter-sanitizer and adapter theorems -/

/-- Claim C9: the 10000-character ceiling is checked on the NUL-stripped
text: a string whose raw length exceeds 10000, but whose length after
removing NUL characters is at most 10000, is accepted and returned
stripped. -/
theorem c9_length_checked_after_nul_strip (s : List Char)
    (hraw : s.length > 10000)
    (hstrip : (s.filter (fun c => c ≠ '\x00')).length ≤ 10000) :
    sanitize_parameter (Param.pyStr s) =
      Except.ok (Param.pyStr (s.filter (fun c => c ≠ '\x00'))) := by
  rw [sanitize_parameter]
  rw [if_neg (by omega)]

/-- Witness for claim C9: 9000 payload characters plus 2000 NULs. -/
theorem c9_witness :
    (List.replicate 9000 'a' ++ List.replicate 2000 '\x00').length > 10000 ∧
    ((List.replicate 9000 'a' ++ List.replicate 2000 '\x00').filter
      (fun c => c ≠ '\x00')).length ≤ 10000 ∧
    sanitize_parameter (Param.pyStr (List.replicate 9000 'a' ++ List.replicate 2000 '\x00')) =
      Except.ok (Param.pyStr ((List.replicate 9000 'a' ++ List.replicate 2000 '\x00').filter
        (fun c => c ≠ '\x00'))) := by
  have hfa : (List.replicate 9000 'a').filter (fun c => c ≠ '\x00') =
      List.replicate 9000 'a' := by
    rw [List.filter_eq_self]
    intro a ha
    rw [List.eq_of_mem_replicate ha]
    decide
  have hfz : (List.replicate 2000 '\x00').filter (fun c => c ≠ '\x00') = [] := by
    rw [List.filter_eq_nil_iff]
    intro a ha
    rw [List.eq_of_mem_replicate ha]
    decide
  have h1 : (List.replicate 9000 'a' ++ List.replicate 2000 '\x00').length > 10000 := by
    rw [List.length_append, List.length_replicate, List.length_replicate]
    omega
  have h2 : ((List.replicate 9000 'a' ++ List.replicate 2000 '\x00').filter
      (fun c => c ≠ '\x00')).length ≤ 10000 := by
    rw [List.filter_append, hfa, hfz, List.append_nil, List.length_replicate]
    omega
  exact ⟨h1, h2, c9_length_checked_after_nul_strip _ h1 h2⟩

/-- Claim C10: an empty parameter tuple (like a missing one) is normalized
to `None`, and every adapter's `execute_query` then reaches its driver
stage with no parameter binding at all. -/
theorem c10_empty_parameters_normalized :
    sanitize_parameters (some []) = Except.ok none ∧
    sanitize_parameters none = Except.ok none ∧
    (∀ connectResult run ro q parse,
      validate_query_safety ro q parse = Except.ok () →
      sqlite_execute_query connectResult run ro q parse (some []) =
        sqlite_driver_stage connectResult run q none) ∧
    (∀ pool getconn setro run ro q parse,
      validate_query_safety ro q parse = Except.ok () →
      postgresql_execute_query pool getconn setro run ro q parse (some []) =
        postgresql_driver_stage pool getconn setro run ro q none) ∧
    (∀ pool getconn setro run ro q parse,
      validate_query_safety ro q parse = Except.ok () →
      mysql_execute_query pool getconn setro run ro q parse (some []) =
        mysql_driver_stage pool getconn setro run ro q none) ∧
    (∀ pool run ro q parse,
      validate_query_safety ro q parse = Except.ok () →
      db2_execute_query pool run ro q parse (some []) =
        db2_driver_stage pool run q none) := by
  refine ⟨rfl, rfl, ?_, ?_, ?_, ?_⟩
  · intro connectResult run ro q parse hval
    rw [sqlite_execute_query, hval]
    rfl
  · intro pool getconn setro run ro q parse hval
    rw [postgresql_execute_query, hval]
    rfl
  · intro pool getconn setro run ro q parse hval
    rw [mysql_execute_query, hval]
    rfl
  · intro pool run ro q parse hval
    rw [db2_execute_query, hval]
    rfl

/-- Witness for claim C10 on the SQLite adapter at a concrete accepted
query and trivial driver oracle. -/
theorem c10_witness :
    validate_query_safety true "SELECT 1".toList (ParseResult.parsed ["SELECT"]) =
      Except.ok () ∧
    sqlite_execute_query (Except.ok ()) (fun _ _ => Except.ok ([], [])) true
        "SELECT 1".toList (ParseResult.parsed ["SELECT"]) (some []) =
      sqlite_driver_stage (Except.ok ()) (fun _ _ => Except.ok ([], []))
        "SELECT 1".toList none :=
  ⟨by rfl,
    c10_empty_parameters_normalized.2.2.1 (Except.ok ())
      (fun _ _ => Except.ok ([], [])) true "SELECT 1".toList
      (ParseResult.parsed ["SELECT"]) (by rfl)⟩

/-- Claim C4: the sanitizer leaves `None` and non-string scalars unchanged,
strips NUL characters from strings, rejects over-long strings with a
validation error, is applied elementwise by `_sanitize_parameters`, and runs
before the backend driver call in every adapter's `execute_query` — a
sanitizer failure surfaces as that validation error with no driver
involvement (the result does not depend on the driver oracles), and a
sanitizer success hands the driver stage exactly the sanitized tuple. -/
theorem c4_sanitize_parameters_spec :
    sanitize_parameter Param.pyNone = Except.ok Param.pyNone ∧
    (∀ s, (s.filter (fun c => c ≠ '\x00')).length ≤ 10000 →
      sanitize_parameter (Param.pyStr s) =
        Except.ok (Param.pyStr (s.filter (fun c => c ≠ '\x00')))) ∧
    (∀ s, (s.filter (fun c => c ≠ '\x00')).length > 10000 →
      sanitize_parameter (Param.pyStr s) =
        Except.error (ValidationError "Parameter value too long (max 10000 characters)") ∧
      (ValidationError "Parameter value too long (max 10000 characters)").category =
        ErrorCategory.validation) ∧
    (∀ n, sanitize_parameter (Param.pyInt n) = Except.ok (Param.pyInt n)) ∧
    (∀ q, sanitize_parameter (Param.pyFloat q) = Except.ok (Param.pyFloat q)) ∧
    (∀ b, sanitize_parameter (Param.pyBool b) = Except.ok (Param.pyBool b)) ∧
    (∀ bs, sanitize_parameter (Param.pyBytes bs) = Except.ok (Param.pyBytes bs)) ∧
    (∀ ps, ps ≠ [] → sanitize_parameters (some ps) =
      (ps.mapM sanitize_parameter).map some) ∧
    (∀ connectResult run ro q parse params ps,
      validate_query_safety ro q parse = Except.ok () →
      sanitize_parameters params = Except.ok ps →
      sqlite_execute_query connectResult run ro q parse params =
        sqlite_driver_stage connectResult run q (truthyParams ps)) ∧
    (∀ connectResult run ro q parse params err,
      validate_query_safety ro q parse = Except.ok () →
      sanitize_parameters params = Except.error err →
      sqlite_execute_query connectResult run ro q parse params =
        Except.error (PyExc.dbError err)) ∧
    (∀ pool getconn setro run ro q parse params ps,
      validate_query_safety ro q parse = Except.ok () →
      sanitize_parameters params = Except.ok ps →
      postgresql_execute_query pool getconn setro run ro q parse params =
        postgresql_driver_stage pool getconn setro run ro q (truthyParams ps)) ∧
    (∀ pool getconn setro run ro q parse params err,
      validate_query_safety ro q parse = Except.ok () →
      sanitize_parameters params = Except.error err →
      postgresql_execute_query pool getconn setro run ro q parse params =
        Except.error (PyExc.dbError err)) ∧
    (∀ pool getconn setro run ro q parse params ps,
      validate_query_safety ro q parse = Except.ok () →
      sanitize_parameters params = Except.ok ps →
      mysql_execute_query pool getconn setro run ro q parse params =
        mysql_driver_stage pool getconn setro run ro q (truthyParams ps)) ∧
    (∀ pool run ro q parse params ps,
      validate_query_safety ro q parse = Except.ok () →
      sanitize_parameters params = Except.ok ps →
      db2_execute_query pool run ro q parse params =
        db2_driver_stage pool run q (truthyParams ps)) := by
  refine ⟨rfl, ?_, ?_, fun n => rfl, fun q => rfl, fun b => rfl, fun bs => rfl,
    ?_, ?_, ?_, ?_, ?_, ?_, ?_⟩
  · intro s h
    rw [sanitize_parameter]
    rw [if_neg (by omega)]
  · intro s h
    refine ⟨?_, rfl⟩
    rw [sanitize_parameter]
    rw [if_pos (by omega)]
  · intro ps hps
    rw [sanitize_parameters, if_neg (by simpa using hps)]
  · intro connectResult run ro q parse params ps hval hsan
    rw [sqlite_execute_query, hval, hsan]
  · intro connectResult run ro q parse params err hval hsan
    rw [sqlite_execute_query, hval, hsan]
  · intro pool getconn setro run ro q parse params ps hval hsan
    rw [postgresql_execute_query, hval, hsan]
  · intro pool getconn setro run ro q parse params err hval hsan
    rw [postgresql_execute_query, hval, hsan]
  · intro pool getconn setro run ro q parse params ps hval hsan
    rw [mysql_execute_query, hval, hsan]
  · intro pool run ro q parse params ps hval hsan
    rw [db2_execute_query, hval, hsan]

/-- Witness for claim C4: a NUL-bearing string parameter reaches the SQLite
driver stage stripped, and an over-long parameter is rejected with the
validation error before the driver is consulted. -/
theorem c4_witness :
    validate_query_safety true "SELECT ?".toList (ParseResult.parsed ["SELECT"]) =
      Except.ok () ∧
    sanitize_parameters (some [Param.pyStr ['a', '\x00', 'b']]) =
      Except.ok (some [Param.pyStr ['a', 'b']]) ∧
    sqlite_execute_query (Except.ok ()) (fun _ _ => Except.ok ([], [])) true
        "SELECT ?".toList (ParseResult.parsed ["SELECT"])
        (some [Param.pyStr ['a', '\x00', 'b']]) =
      sqlite_driver_stage (Except.ok ()) (fun _ _ => Except.ok ([], []))
        "SELECT ?".toList (truthyParams (some [Param.pyStr ['a', 'b']])) :=
  ⟨by rfl, by rfl,
    c4_sanitize_parameters_spec.2.2.2.2.2.2.2.2.1 (Except.ok ())
      (fun _ _ => Except.ok ([], [])) true "SELECT ?".toList
      (ParseResult.parsed ["SELECT"]) (some [Param.pyStr ['a', '\x00', 'b']])
      (some [Param.pyStr ['a', 'b']]) (by rfl) (by rfl)⟩

/-- Claim C2 is contradicted by the code: `test_connection` catches only the
native driver error class, but `get_connection` replaces every native error
by a `DatabaseError` from `map_driver_error` (and the PostgreSQL adapter
raises `ConnectionError` directly when the pool is missing), so connection
and query failures during the check propagate outward instead of producing
`{connected: false, error: ...}`.  Three concrete failing executions: a
SQLite file that cannot be opened, a SQLite version query failing mid-check,
and a PostgreSQL connection refusal. -/
theorem c2_test_connection_propagates :
    sqlite_test_connection
      { connectResult := Except.error "unable to open database file",
        versionResult := Except.ok "3.45.1",
        tableCountResult := Except.ok 0 } "/data/app.db" =
      Except.error (PyExc.dbError (ConnectionError
        "Cannot open SQLite database file. Check file path and permissions."
        (some "unable to open database file"))) ∧
    sqlite_test_connection
      { connectResult := Except.ok (),
        versionResult := Except.error "disk I/O error",
        tableCountResult := Except.ok 0 } "/data/app.db" =
      Except.error (PyExc.dbError (QueryError "Database error: disk I/O error"
        (some "disk I/O error"))) ∧
    postgresql_test_connection
      { poolInitialized := true,
        getconnResult := Except.error "connection refused",
        versionResult := Except.ok "PostgreSQL 16.2",
        currentDatabaseResult := Except.ok "app",
        tableCountResult := Except.ok 0 } =
      Except.error (PyExc.dbError (ConnectionError
        ("Cannot connect to PostgreSQL server. Check if the server is running " ++
          "and that the connection details are correct.")
        (some "connection refused"))) := by
  refine ⟨by rfl, by rfl, by rfl⟩

end JdbcMcp
